import Mathlib

/-!
Shallow embedding of the GameDeals bot (`my_first_bot.py`): the TTL response
cache, the three storefront adapters (Epic flash promotions, GOG catalog
listing, Steam store search), the durable subscriber/ledger store, and the
scheduled free-games notification job.  Times are modelled as natural numbers,
Python dictionaries as association lists, and fallible HTTP calls as an
explicit outcome type.  Strings stay strings; Python truthiness of strings and
options is modelled explicitly where the source relies on it.
-/

/-- Python `a or b` for an optional string `a`: `None` and `""` are falsy. -/
def pyOrStr (a : Option String) (b : String) : String :=
  match a with
  | some s => if s = "" then b else s
  | none => b

/-- Python `a or b` on two optional strings (`None`/`""` falsy). -/
def pyOrOpt (a b : Option String) : Option String :=
  match a with
  | some s => if s = "" then b else some s
  | none => b

/-- Python `str.upper` on one character: ASCII letters and the Cyrillic range
`а`–`я`, `ё` are uppercased (the markers the bot tests are covered). -/
def pyUpperChar (c : Char) : Char :=
  if c.isLower then c.toUpper
  else if 0x430 ≤ c.toNat ∧ c.toNat ≤ 0x44F then Char.ofNat (c.toNat - 0x20)
  else if c.toNat = 0x451 then Char.ofNat 0x401
  else c

/-- Python `str.upper`. -/
def pyUpper (s : String) : String :=
  String.mk (s.toList.map pyUpperChar)

/-- Contiguous-sublist test on character lists (Python `needle in hay`). -/
def charsContain (hay needle : List Char) : Bool :=
  match hay with
  | [] => needle.isEmpty
  | _ :: t => needle.isPrefixOf hay || charsContain t needle

/-- Python substring test `needle in hay` on strings. -/
def strContains (hay needle : String) : Bool :=
  charsContain hay.toList needle.toList

/-- In-memory cache `CACHE`: a dictionary from key to `(expires, data)`. -/
abbrev CacheState (α : Type) : Type := List (String × Nat × α)

/-- `cache_get`: look the key up; if the entry has expired (`now > expires`)
delete it and report a miss, else return the stored data.  The (possibly
shrunk) cache is returned alongside, since the Python code mutates `CACHE`. -/
def cache_get (key : String) (now : Nat) (c : CacheState α) :
    Option α × CacheState α :=
  match c.find? (fun e => e.1 == key) with
  | none => (none, c)
  | some (_, expires, data) =>
    if expires < now then (none, c.filter (fun e => !(e.1 == key)))
    else (some data, c)

/-- `cache_set`: store `(now + ttl, data)` under the key (dict assignment
replaces any previous entry for the key). -/
def cache_set (key : String) (data : α) (ttl : Nat) (now : Nat)
    (c : CacheState α) : CacheState α :=
  (key, now + ttl, data) :: c.filter (fun e => !(e.1 == key))

/-- Normalized offer record built by every adapter.  Fields that Python can
leave as `None` but that only flow into rendered text are modelled by the
string `"None"` (the `str()` rendering); `image` keeps the `Option`. -/
structure Offer where
  title : String
  id : String
  original_price : String
  discount_price : String
  url : String
  image : Option String
  store : String
deriving DecidableEq

/-- Epic free check (line 386): membership in `('0', 'Free', '0.00', 'FREE')`,
or the uppercased string containing `'FREE'` or `'БЕСПЛАТ'`. -/
def epic_free (dp : String) : Bool :=
  dp == "0" || dp == "Free" || dp == "0.00" || dp == "FREE"
  || strContains (pyUpper dp) "FREE" || strContains (pyUpper dp) "БЕСПЛАТ"

/-- GOG free check (line 395): equality with `'$0'` or `'Free'`, the uppercased
string containing `'FREE'`, or the string containing the digit `'0'`. -/
def gog_free (dp : String) : Bool :=
  dp == "$0" || dp == "Free" || strContains (pyUpper dp) "FREE"
  || strContains dp "0"

example : epic_free "0" = true := by decide
example : epic_free "$0" = false := by decide
example : gog_free "$0" = true := by decide
example : gog_free "$19.99" = false := by decide
example : epic_free "бесплатно" = true := by decide

/-- The JSON document an HTTP response parses to: `falsy` is a document that
parses but fails the `if not data` truthiness check (e.g. `{}`), `badShape` is
truthy JSON whose expected nesting is absent (the adapter's parse loop raises
and the exception is caught), `good` carries the well-shaped payload. -/
inductive JsonDoc (ε : Type) where
  | falsy
  | badShape
  | good (payload : ε)
deriving DecidableEq

/-- Outcome of `SESSION.get(...)` inside `fetch_json`: `raised` covers network
errors, timeouts and unfollowable redirects (exceptions from the request
itself); `response` carries the final HTTP status and, when the body parses as
JSON, the parsed document (`none` = `resp.json()` raises). -/
inductive HttpOutcome (ε : Type) where
  | raised
  | response (status : Nat) (body : Option (JsonDoc ε))
deriving DecidableEq

/-- `fetch_json`: any exception (transport error, `raise_for_status` on a
status ≥ 400, JSON decode failure) is caught and yields `None`. -/
def fetch_json : HttpOutcome ε → Option (JsonDoc ε)
  | .raised => none
  | .response status body => if 400 ≤ status then none else body

/-- Truthiness of the value `cache_get` returned (`if cached:`): a present,
non-empty list. -/
def pyTruthyList : Option (List α) → Bool
  | some l => !l.isEmpty
  | none => false

/-- Promotion block of an Epic element.  Each promotional-offer group is
represented by its Python truthiness (an empty group — `{}` or `[]` — is
falsy); a `none` list models a missing or `null` field. -/
structure PromoGroups where
  promotionalOffers : Option (List Bool)
  upcomingPromotionalOffers : Option (List Bool)
deriving DecidableEq

/-- One element of the Epic `freeGamesPromotions` catalog, restricted to the
fields the adapter reads.  `originalPrice`/`discountPrice` are `none` when any
level of `price.totalPrice.fmtPrice.{...}` is missing. -/
structure EpicElem where
  title : Option String
  productSlug : Option String
  id : Option String
  originalPrice : Option String
  discountPrice : Option String
  keyImages : List (String × String)
  promotions : Option PromoGroups
deriving DecidableEq

/-- The qualification test of the Epic loop:
`(promos.get('promotionalOffers') and any(...)) or (upcoming and any(...))`. -/
def epic_elem_qualifies (g : EpicElem) : Bool :=
  let promos := g.promotions.getD ⟨none, none⟩
  (promos.promotionalOffers.getD []).any id
    || (promos.upcomingPromotionalOffers.getD []).any id

/-- Offer built from a qualifying Epic element. -/
def offer_of_epic (g : EpicElem) : Offer :=
  let title := pyOrStr g.title (pyOrStr g.productSlug "Unknown")
  { title := title
    id := pyOrStr g.id title
    original_price := g.originalPrice.getD "—"
    discount_price := g.discountPrice.getD "—"
    url := "https://store.epicgames.com/p/" ++ g.productSlug.getD ""
    image := (g.keyImages.find? fun i => i.1 == "Thumbnail").map Prod.snd
    store := "epic" }

/-- The Epic parse loop: append each qualifying element, break once the output
reaches 10 offers. -/
def epic_go : List EpicElem → List Offer → List Offer
  | [], out => out
  | g :: rest, out =>
    if epic_elem_qualifies g then
      let out' := out ++ [offer_of_epic g]
      if 10 ≤ out'.length then out' else epic_go rest out'
    else epic_go rest out

/-- Parse the element list of the Epic feed. -/
def epic_parse (elems : List EpicElem) : List Offer :=
  epic_go elems []

/-- The fetch-and-parse path of `get_epic_games` (taken on a cache miss):
a failed fetch or falsy document returns `[]` without caching; a parse
exception caches and returns `[]`; a good document caches the parsed offers
with a 10-minute TTL. -/
def epic_fetch_path (now : Nat) (c : CacheState (List Offer))
    (o : HttpOutcome (List EpicElem)) : List Offer × CacheState (List Offer) :=
  match fetch_json o with
  | none => ([], c)
  | some .falsy => ([], c)
  | some .badShape => ([], cache_set "epic_top" [] (60 * 10) now c)
  | some (.good elems) =>
      let out := epic_parse elems
      (out, cache_set "epic_top" out (60 * 10) now c)

/-- `get_epic_games`: serve a truthy cached value, otherwise fetch. -/
def get_epic_games (now : Nat) (c : CacheState (List Offer))
    (o : HttpOutcome (List EpicElem)) : List Offer × CacheState (List Offer) :=
  match cache_get "epic_top" now c with
  | (some l, c1) => if l.isEmpty then epic_fetch_path now c1 o else (l, c1)
  | (none, c1) => epic_fetch_path now c1 o

/-- GOG price object (`price.amount` pre-rendered by the f-string; `none`
renders as Python `str(None)`). -/
structure GogPrice where
  amount : Option String
  currency : Option String
deriving DecidableEq

/-- One product of the GOG filtered-catalog feed. -/
structure GogProduct where
  title : Option String
  id : Option String
  price : Option GogPrice
  url : Option String
  image : Option String
deriving DecidableEq

/-- `f"{price.get('amount')}{price.get('currency', '')}"`. -/
def gog_price_render (pr : GogPrice) : String :=
  (match pr.amount with | some a => a | none => "None") ++ pr.currency.getD ""

/-- Offer built from one GOG product: a `None` price means a promotional/free
item (discount rendered as the literal `"0"`); otherwise discounted and
original price render identically. -/
def offer_of_gog (p : GogProduct) : Offer :=
  { title := (p.title).getD "None"
    id := (p.id).getD "None"
    original_price := match p.price with | none => "—" | some pp => gog_price_render pp
    discount_price := match p.price with | none => "0" | some pp => gog_price_render pp
    url := "https://www.gog.com" ++ (p.url).getD "None"
    image := match p.image with
             | some im => if im = "" then none else some (im ++ ".jpg")
             | none => none
    store := "gog" }

/-- GOG parse: the first 15 products, each normalized. -/
def gog_parse (products : List GogProduct) : List Offer :=
  (products.take 15).map offer_of_gog

/-- Fetch-and-parse path of `get_gog_games`. -/
def gog_fetch_path (now : Nat) (c : CacheState (List Offer))
    (o : HttpOutcome (List GogProduct)) : List Offer × CacheState (List Offer) :=
  match fetch_json o with
  | none => ([], c)
  | some .falsy => ([], c)
  | some .badShape => ([], cache_set "gog_top" [] (60 * 10) now c)
  | some (.good products) =>
      let out := gog_parse products
      (out, cache_set "gog_top" out (60 * 10) now c)

/-- `get_gog_games`: serve a truthy cached value, otherwise fetch. -/
def get_gog_games (now : Nat) (c : CacheState (List Offer))
    (o : HttpOutcome (List GogProduct)) : List Offer × CacheState (List Offer) :=
  match cache_get "gog_top" now c with
  | (some l, c1) => if l.isEmpty then gog_fetch_path now c1 o else (l, c1)
  | (none, c1) => gog_fetch_path now c1 o

/-- Steam price block: `final`/`initial` in integer cents.  A missing or falsy
(`{}`) price dictionary is `none` at the item level. -/
structure SteamPrice where
  final : Option Nat
  initial : Option Nat
deriving DecidableEq

/-- One item of the Steam storesearch feed. -/
structure SteamItem where
  name : Option String
  title : Option String
  id : Option String
  appid : Option String
  price : Option SteamPrice
  is_free : Bool
  tiny_image : Option String
  url : Option String
deriving DecidableEq

/-- Decimal digit character. -/
def digitChar (d : Nat) : Char := Char.ofNat (48 + d)

/-- `f"${final/100:.2f}"`: dollars, a point, and exactly two fraction digits
(the cents amounts in the feed are small enough that the float division and
format are exact). -/
def fmtCents (n : Nat) : String :=
  "$" ++ toString (n / 100) ++ "."
    ++ String.mk [digitChar (n % 100 / 10), digitChar (n % 100 % 10)]

/-- The price text of one Steam item: a present integer `final` renders via
`fmtCents`; otherwise `"Free"` when the `is_free` flag is truthy, else `"—"`. -/
def steam_price_text (it : SteamItem) : String :=
  match it.price with
  | some p =>
      match p.final with
      | none => if it.is_free then "Free" else "—"
      | some n => fmtCents n
  | none => if it.is_free then "Free" else "—"

/-- Offer built from one Steam item. -/
def offer_of_steam (it : SteamItem) : Offer :=
  let appid := pyOrOpt it.id (pyOrOpt it.appid it.id)
  { title := pyOrStr it.name (it.title.getD "None")
    id := match appid with | some s => s | none => "None"
    original_price := match it.price with
      | some p => match p.initial with | some n => toString n | none => "None"
      | none => "—"
    discount_price := steam_price_text it
    url := match appid with
      | some s =>
          if s = "" then it.url.getD "None"
          else "https://store.steampowered.com/app/" ++ s ++ "/"
      | none => it.url.getD "None"
    image := it.tiny_image
    store := "steam" }

/-- Steam parse: the first `limit` items, each normalized. -/
def steam_parse (items : List SteamItem) (limit : Nat) : List Offer :=
  (items.take limit).map offer_of_steam

/-- Cache key `f"steam:{query}:{limit}"`. -/
def steam_key (query : String) (limit : Nat) : String :=
  "steam:" ++ query ++ ":" ++ toString limit

/-- Fetch-and-parse path of `get_steam_games`. -/
def steam_fetch_path (query : String) (limit : Nat) (now : Nat)
    (c : CacheState (List Offer)) (o : HttpOutcome (List SteamItem)) :
    List Offer × CacheState (List Offer) :=
  match fetch_json o with
  | none => ([], c)
  | some .falsy => ([], c)
  | some .badShape => ([], cache_set (steam_key query limit) [] (60 * 5) now c)
  | some (.good items) =>
      let out := steam_parse items limit
      (out, cache_set (steam_key query limit) out (60 * 5) now c)

/-- `get_steam_games`: serve a truthy cached value for this query's key,
otherwise fetch. -/
def get_steam_games (query : String) (limit : Nat) (now : Nat)
    (c : CacheState (List Offer)) (o : HttpOutcome (List SteamItem)) :
    List Offer × CacheState (List Offer) :=
  match cache_get (steam_key query limit) now c with
  | (some l, c1) => if l.isEmpty then steam_fetch_path query limit now c1 o else (l, c1)
  | (none, c1) => steam_fetch_path query limit now c1 o

/-- The `last_offers` table: rows `(store, offer_id, title)`, primary key
`(store, offer_id)`. -/
structure Ledger where
  entries : List (String × String × String)
deriving DecidableEq

/-- `offer_exists`: is there a row for `(store, offer_id)`? -/
def offer_exists (L : Ledger) (store offer_id : String) : Bool :=
  L.entries.any (fun e => e.1 == store && e.2.1 == offer_id)

/-- `save_offer`: `INSERT OR IGNORE` — a row whose primary key is already
present leaves the table unchanged. -/
def save_offer (L : Ledger) (store offer_id title : String) : Ledger :=
  if offer_exists L store offer_id then L
  else ⟨(store, offer_id, title) :: L.entries⟩

/-- Title stored for `(store, offer_id)`, if any. -/
def ledger_lookup (L : Ledger) (store offer_id : String) : Option String :=
  (L.entries.find? fun e => e.1 == store && e.2.1 == offer_id).map
    (fun e => e.2.2)

/-- The `subscribers` table: rows `(chat_id, added_at)`, primary key
`chat_id`. -/
abbrev SubscriberTable : Type := List (Int × String)

/-- `add_subscriber`: `INSERT OR IGNORE` on the chat id. -/
def add_subscriber (chat_id : Int) (added_at : String)
    (s : SubscriberTable) : SubscriberTable :=
  if s.any (fun r => r.1 == chat_id) then s else s ++ [(chat_id, added_at)]

/-- `remove_subscriber`: `DELETE WHERE chat_id = ?`. -/
def remove_subscriber (chat_id : Int) (s : SubscriberTable) : SubscriberTable :=
  s.filter (fun r => !(r.1 == chat_id))

/-- `list_subscribers`: the chat ids. -/
def list_subscribers (s : SubscriberTable) : List Int :=
  s.map Prod.fst

/-- Notice appended for a newly free Epic offer. -/
def epic_notice (g : Offer) : String :=
  "🎁 <b>Epic — бесплатно:</b> " ++ g.title ++ "\n🔗 " ++ g.url

/-- Notice appended for a newly free GOG offer. -/
def gog_notice (g : Offer) : String :=
  "🎁 <b>GOG — бесплатно:</b> " ++ g.title ++ "\n🔗 " ++ g.url

/-- One store's pass of the job: for each offer whose discount string the
store's predicate classifies free, check the ledger; when absent, save the
offer and append its notice. -/
def run_store (free : String → Bool) (store : String) (notice : Offer → String) :
    List Offer → Ledger → Ledger × List String
  | [], L => (L, [])
  | g :: rest, L =>
    if free g.discount_price then
      if offer_exists L store g.id then run_store free store notice rest L
      else
        let r := run_store free store notice rest (save_offer L store g.id g.title)
        (r.1, notice g :: r.2)
    else run_store free store notice rest L

/-- `check_free_games_job`, given the epic and gog offer lists the adapters
returned: run the two free-offer passes, then — when the batch and the
subscriber list are both non-empty — attempt one delivery per subscriber,
recording each attempt's outcome (`deliverOk`); a failed attempt is only
logged and the loop continues. -/
def check_free_games_job (epic gog : List Offer) (L : Ledger)
    (subs : List Int) (deliverOk : Int → Bool) :
    Ledger × List String × List (Int × Bool) :=
  let r1 := run_store epic_free "epic" epic_notice epic L
  let r2 := run_store gog_free "gog" gog_notice gog r1.1
  let msgs := r1.2 ++ r2.2
  if msgs.isEmpty then (r2.1, msgs, [])
  else if subs.isEmpty then (r2.1, msgs, [])
  else (r2.1, msgs, subs.map (fun c => (c, deliverOk c)))

/-- The durable store: the two SQLite tables. -/
structure DB where
  subscribers : SubscriberTable
  ledger : Ledger

/-- Every state-touching operation of the system. -/
inductive Op where
  | subscribeOp (chat_id : Int) (added_at : String)
  | unsubscribeOp (chat_id : Int)
  | offerExistsOp (store offer_id : String)
  | saveOfferOp (store offer_id title : String)
  | schedulerOp (epic gog : List Offer) (deliverOk : Int → Bool)

/-- Effect of one operation on the durable store (`offer_exists` is a pure
read; the scheduler reads the subscriber table and updates the ledger). -/
def applyOp (op : Op) (db : DB) : DB :=
  match op with
  | .subscribeOp c t => { db with subscribers := add_subscriber c t db.subscribers }
  | .unsubscribeOp c => { db with subscribers := remove_subscriber c db.subscribers }
  | .offerExistsOp _ _ => db
  | .saveOfferOp s i t => { db with ledger := save_offer db.ledger s i t }
  | .schedulerOp e g d =>
      { db with ledger :=
          (check_free_games_job e g db.ledger (list_subscribers db.subscribers) d).1 }

/-- Sample normalized offer used by the concrete witnesses. -/
def sampleOffer : Offer :=
  { title := "T", id := "1", original_price := "$5", discount_price := "Free",
    url := "U", image := none, store := "epic" }

theorem find?_filter_ne_key (l : List (String × Nat × α)) (k : String) :
    (l.filter (fun e => !(e.1 == k))).find? (fun e => e.1 == k) = none := by
  rw [List.find?_eq_none]
  intro x hx
  have h := (List.mem_filter.1 hx).2
  simp only [Bool.not_eq_true'] at h
  simp [h]

/-- C3: a `get` strictly before the TTL elapses returns the stored payload and
leaves the store as the `put` left it; a `get` strictly after the TTL elapses
returns absent and evicts the key from the store. -/
theorem C3_cache_ttl (α : Type) (k : String) (p : α) (ttl putTime now : Nat)
    (c : CacheState α) :
    (now < putTime + ttl →
      cache_get k now (cache_set k p ttl putTime c)
        = (some p, cache_set k p ttl putTime c))
    ∧ (putTime + ttl < now →
      (cache_get k now (cache_set k p ttl putTime c)).1 = none
      ∧ ((cache_get k now (cache_set k p ttl putTime c)).2.find?
          (fun e => e.1 == k)) = none) := by
  have hfind : (cache_set k p ttl putTime c).find? (fun e => e.1 == k)
      = some (k, putTime + ttl, p) := by
    simp [cache_set, List.find?]
  constructor
  · intro h
    have hlt : ¬ putTime + ttl < now := by omega
    simp [cache_get, hfind, hlt]
  · intro h
    refine ⟨?_, ?_⟩
    · simp [cache_get, hfind, h]
    · simp only [cache_get, hfind, if_pos h]
      exact find?_filter_ne_key _ k

theorem C3_witness :
    (3 < 0 + 5
      ∧ cache_get "k" 3 (cache_set "k" (7 : Nat) 5 0 [])
          = (some 7, cache_set "k" (7 : Nat) 5 0 []))
    ∧ (0 + 5 < 9
      ∧ ((cache_get "k" 9 (cache_set "k" (7 : Nat) 5 0 [])).1 = none
        ∧ ((cache_get "k" 9 (cache_set "k" (7 : Nat) 5 0 [])).2.find?
            (fun e => e.1 == "k")) = none)) :=
  ⟨⟨by decide, (C3_cache_ttl Nat "k" 7 5 0 3 []).1 (by decide)⟩,
   ⟨by decide, (C3_cache_ttl Nat "k" 7 5 0 9 []).2 (by decide)⟩⟩

/-- C8: subscribing twice leaves the same subscriber table as subscribing
once, and unsubscribing twice the same table as unsubscribing once; both
operations are total (`INSERT OR IGNORE` / unconditional `DELETE`). -/
theorem C8_subscription_idempotent (c : Int) (t1 t2 : String)
    (s : SubscriberTable) :
    add_subscriber c t2 (add_subscriber c t1 s) = add_subscriber c t1 s
    ∧ remove_subscriber c (remove_subscriber c s) = remove_subscriber c s := by
  constructor
  · by_cases h : s.any (fun r => r.1 == c) = true
    · simp [add_subscriber, h]
    · simp only [add_subscriber, if_neg h]
      have hmem : ((s ++ [(c, t1)]).any (fun r => r.1 == c)) = true := by
        simp [List.any_append]
      simp [hmem]
  · simp [remove_subscriber, List.filter_filter]

/-- C2 fails on the code: the Epic branch classifies the rendered discount
string `"$0"` as not free, while the GOG branch classifies it as free, so the
classification is neither uniform nor does `"$0"` classify free for every
source. -/
theorem C2_counterexample : epic_free "$0" = false ∧ gog_free "$0" = true := by
  decide

/-- C2 amended: the GOG predicate classifies all five free vectors free and
`"$19.99"` not-free; the Epic predicate classifies `"0"`, `"0.00"`, `"Free"`
and `"FREE"` free and both `"$0"` and `"$19.99"` not-free; the two predicates
therefore disagree at `"$0"`. -/
theorem C2_free_classification_vectors :
    epic_free "0" = true ∧ epic_free "0.00" = true ∧ epic_free "Free" = true
    ∧ epic_free "FREE" = true ∧ epic_free "$0" = false
    ∧ epic_free "$19.99" = false
    ∧ gog_free "0" = true ∧ gog_free "0.00" = true ∧ gog_free "Free" = true
    ∧ gog_free "FREE" = true ∧ gog_free "$0" = true
    ∧ gog_free "$19.99" = false := by
  decide

/-- Steam item with no price payload and no free flag. -/
def steamNoPrice : SteamItem :=
  { name := some "X", title := none, id := some "10", appid := none,
    price := none, is_free := false, tiny_image := none, url := none }

/-- Steam item with an integer final price of 1999 cents. -/
def steamItemPaid : SteamItem :=
  { name := some "Y", title := none, id := some "20", appid := none,
    price := some { final := some 1999, initial := some 1999 },
    is_free := false, tiny_image := none, url := none }

/-- Steam item whose record carries the explicit free flag and no price. -/
def steamItemFree : SteamItem :=
  { name := some "Z", title := none, id := some "30", appid := none,
    price := none, is_free := true, tiny_image := none, url := none }

/-- C6 fails on the code: an item that carries no price field at all but no
`is_free` flag renders the discount string `"—"`, not the literal free marker
`"Free"`. -/
theorem C6_counterexample :
    steamNoPrice.price = none
    ∧ (steam_parse [steamNoPrice] 5).map Offer.discount_price = ["—"]
    ∧ steam_price_text steamNoPrice ≠ "Free" := by
  decide

/-- C6 amended: an integer minor-unit final price `n` renders as `"$"`
followed by the major-unit amount and exactly two fraction digits; when no
final price is available (missing or falsy price payload, or a price payload
without `final`), the item renders `"Free"` exactly when the explicit free
flag is set, and `"—"` otherwise. -/
theorem C6_steam_price_rendering (it : SteamItem) (n : Nat) :
    (it.price.bind SteamPrice.final = some n →
      (offer_of_steam it).discount_price
        = "$" ++ toString (n / 100) ++ "."
            ++ String.mk [digitChar (n % 100 / 10), digitChar (n % 100 % 10)])
    ∧ (it.price.bind SteamPrice.final = none →
      (offer_of_steam it).discount_price
        = if it.is_free then "Free" else "—") := by
  have hd : (offer_of_steam it).discount_price = steam_price_text it := rfl
  constructor
  · intro h
    rw [hd]
    match hp : it.price with
    | none => rw [hp] at h; simp at h
    | some p =>
      match hf : p.final with
      | none => rw [hp] at h; simp [hf] at h
      | some m =>
        rw [hp] at h
        simp [hf] at h
        subst h
        simp [steam_price_text, hp, hf, fmtCents]
  · intro h
    rw [hd]
    match hp : it.price with
    | none => simp [steam_price_text, hp]
    | some p =>
      match hf : p.final with
      | none => simp [steam_price_text, hp, hf]
      | some m => rw [hp] at h; simp [hf] at h

theorem C6_witness :
    (offer_of_steam steamItemPaid).discount_price
        = "$" ++ toString (1999 / 100) ++ "."
            ++ String.mk [digitChar (1999 % 100 / 10), digitChar (1999 % 100 % 10)]
    ∧ (offer_of_steam steamItemFree).discount_price
        = if steamItemFree.is_free then "Free" else "—" :=
  ⟨(C6_steam_price_rendering steamItemPaid 1999).1 (by decide),
   (C6_steam_price_rendering steamItemFree 0).2 (by decide)⟩

/-- Modelled from the claim's words: an element qualifies iff it carries a
non-empty list of current or upcoming promotional-offer groups. -/
def claim_epic_qualifies (g : EpicElem) : Bool :=
  let promos := g.promotions.getD ⟨none, none⟩
  !(promos.promotionalOffers.getD []).isEmpty
    || !(promos.upcomingPromotionalOffers.getD []).isEmpty

/-- Epic element whose current promotional-offer list is non-empty but whose
only group is falsy (e.g. the JSON `promotionalOffers: [[]]`). -/
def epicFalsyGroupElem : EpicElem :=
  { title := some "Bad", productSlug := some "bad", id := some "b1",
    originalPrice := some "$9.99", discountPrice := some "0",
    keyImages := [], promotions := some ⟨some [false], none⟩ }

/-- C7 fails on the code: an element carrying a non-empty current
promotional-offer list whose only group is falsy is excluded from the result,
because the loop tests `any(...)`, not list non-emptiness. -/
theorem C7_counterexample :
    claim_epic_qualifies epicFalsyGroupElem = true
    ∧ epic_parse [epicFalsyGroupElem] = [] := by
  decide

theorem epic_go_spec (elems : List EpicElem) :
    ∀ out : List Offer, out.length < 10 →
      epic_go elems out
        = out ++ ((elems.filter epic_elem_qualifies).take
            (10 - out.length)).map offer_of_epic := by
  induction elems with
  | nil => intro out _; simp [epic_go]
  | cons g rest ih =>
    intro out hlen
    by_cases hq : epic_elem_qualifies g = true
    · rw [epic_go, if_pos hq]
      by_cases hten : 10 ≤ (out ++ [offer_of_epic g]).length
      · have h9 : out.length = 9 := by
          simp only [List.length_append, List.length_singleton] at hten
          omega
        rw [if_pos hten, List.filter_cons_of_pos hq, h9]
        simp
      · have h1 : (out ++ [offer_of_epic g]).length < 10 := by omega
        rw [if_neg hten, ih _ h1, List.filter_cons_of_pos hq]
        have h2 : 10 - out.length = (10 - (out ++ [offer_of_epic g]).length) + 1 := by
          simp only [List.length_append, List.length_singleton]
          omega
        rw [h2, List.take_succ_cons]
        simp
    · rw [epic_go, if_neg hq, List.filter_cons_of_neg hq, ih _ hlen]

/-- C7 amended: the Epic adapter includes an element iff its current or
upcoming promotional-offer list contains at least one truthy (non-empty)
group, keeping the first 10 such elements in feed order; the result always
holds at most 10 offers. -/
theorem C7_epic_inclusion_cap (elems : List EpicElem) :
    epic_parse elems
      = ((elems.filter epic_elem_qualifies).take 10).map offer_of_epic
    ∧ (epic_parse elems).length ≤ 10 := by
  have h := epic_go_spec elems [] (by decide)
  constructor
  · simpa [epic_parse] using h
  · rw [epic_parse, h]
    simp [List.length_take]

theorem offer_exists_mk_cons (s i t s' i' : String)
    (es : List (String × String × String)) :
    offer_exists ⟨(s, i, t) :: es⟩ s' i'
      = ((s == s' && i == i') || offer_exists ⟨es⟩ s' i') := by
  simp [offer_exists]

theorem offer_exists_save_of (L : Ledger) (s i t s' i' : String)
    (h : offer_exists L s' i' = true) :
    offer_exists (save_offer L s i t) s' i' = true := by
  unfold save_offer
  split
  · exact h
  · rw [offer_exists_mk_cons]
    simp only [offer_exists] at h
    simp [h, offer_exists]

theorem offer_exists_save_self (L : Ledger) (s i t : String) :
    offer_exists (save_offer L s i t) s i = true := by
  unfold save_offer
  split
  next h => exact h
  next h => rw [offer_exists_mk_cons]; simp

theorem offer_exists_save_other (L : Ledger) (s i t s' i' : String)
    (hne : ¬(s = s' ∧ i = i')) :
    offer_exists (save_offer L s i t) s' i' = offer_exists L s' i' := by
  unfold save_offer
  split
  · rfl
  · rw [offer_exists_mk_cons]
    rcases not_and_or.mp hne with hs | hi
    · simp [offer_exists, beq_iff_eq, hs]
    · simp [offer_exists, beq_iff_eq, hi]

theorem save_offer_len_of_not (L : Ledger) (s i t : String)
    (h : offer_exists L s i = false) :
    (save_offer L s i t).entries.length = L.entries.length + 1 := by
  simp [save_offer, h]

theorem run_store_mono (f : String → Bool) (st : String) (nt : Offer → String)
    (offers : List Offer) :
    ∀ (L : Ledger) (s' i' : String), offer_exists L s' i' = true →
      offer_exists (run_store f st nt offers L).1 s' i' = true := by
  induction offers with
  | nil => intro L s' i' h; simpa [run_store] using h
  | cons g rest ih =>
    intro L s' i' h
    by_cases hf : f g.discount_price = true
    · by_cases he : offer_exists L st g.id = true
      · simp only [run_store, if_pos hf, if_pos he]
        exact ih L s' i' h
      · simp only [run_store, if_pos hf, if_neg he]
        exact ih _ s' i' (offer_exists_save_of L st g.id g.title s' i' h)
    · simp only [run_store, if_neg hf]
      exact ih L s' i' h

theorem run_store_covers (f : String → Bool) (st : String) (nt : Offer → String)
    (offers : List Offer) :
    ∀ (L : Ledger) (g : Offer), g ∈ offers → f g.discount_price = true →
      offer_exists (run_store f st nt offers L).1 st g.id = true := by
  induction offers with
  | nil => intro L g hg; cases hg
  | cons a rest ih =>
    intro L g hg hf
    rcases List.mem_cons.mp hg with rfl | hmem
    · by_cases he : offer_exists L st g.id = true
      · simp only [run_store, if_pos hf, if_pos he]
        exact run_store_mono f st nt rest L st g.id he
      · simp only [run_store, if_pos hf, if_neg he]
        exact run_store_mono f st nt rest _ st g.id
          (offer_exists_save_self L st g.id g.title)
    · by_cases haf : f a.discount_price = true
      · by_cases he : offer_exists L st a.id = true
        · simp only [run_store, if_pos haf, if_pos he]
          exact ih L g hmem hf
        · simp only [run_store, if_pos haf, if_neg he]
          exact ih _ g hmem hf
      · simp only [run_store, if_neg haf]
        exact ih L g hmem hf

theorem run_store_skip (f : String → Bool) (st : String) (nt : Offer → String)
    (offers : List Offer) :
    ∀ L : Ledger,
      (∀ g ∈ offers, f g.discount_price = true → offer_exists L st g.id = true) →
      run_store f st nt offers L = (L, []) := by
  induction offers with
  | nil => intro L _; simp [run_store]
  | cons a rest ih =>
    intro L h
    by_cases haf : f a.discount_price = true
    · have he := h a (List.mem_cons_self a rest) haf
      simp only [run_store, if_pos haf, if_pos he]
      exact ih L fun g hg hf => h g (List.mem_cons_of_mem _ hg) hf
    · simp only [run_store, if_neg haf]
      exact ih L fun g hg hf => h g (List.mem_cons_of_mem _ hg) hf

theorem run_store_other (f : String → Bool) (st : String) (nt : Offer → String)
    (offers : List Offer) (s' : String) (hst : ¬ st = s') :
    ∀ (L : Ledger) (i' : String),
      offer_exists (run_store f st nt offers L).1 s' i' = offer_exists L s' i' := by
  induction offers with
  | nil => intro L i'; simp [run_store]
  | cons a rest ih =>
    intro L i'
    by_cases haf : f a.discount_price = true
    · by_cases he : offer_exists L st a.id = true
      · simp only [run_store, if_pos haf, if_pos he]
        exact ih L i'
      · simp only [run_store, if_pos haf, if_neg he]
        rw [ih _ i']
        exact offer_exists_save_other L st a.id a.title s' i'
          (fun hc => hst hc.1)
    · simp only [run_store, if_neg haf]
      exact ih L i'

theorem run_store_len (f : String → Bool) (st : String) (nt : Offer → String)
    (offers : List Offer) :
    ∀ L : Ledger,
      (run_store f st nt offers L).1.entries.length
        = L.entries.length + (run_store f st nt offers L).2.length := by
  induction offers with
  | nil => intro L; simp [run_store]
  | cons a rest ih =>
    intro L
    by_cases haf : f a.discount_price = true
    · by_cases he : offer_exists L st a.id = true
      · simp only [run_store, if_pos haf, if_pos he]
        exact ih L
      · have he' : offer_exists L st a.id = false := by
          simpa using he
        simp only [run_store, if_pos haf, if_neg he, List.length_cons]
        rw [ih _, save_offer_len_of_not L st a.id a.title he']
        omega
    · simp only [run_store, if_neg haf]
      exact ih L

theorem run_store_count (f : String → Bool) (st : String) (nt : Offer → String)
    (offers : List Offer) :
    ∀ L : Ledger,
      ((offers.filter fun g => f g.discount_price).map Offer.id).Nodup →
      (run_store f st nt offers L).2.length
        = (offers.filter fun g => f g.discount_price
            && !offer_exists L st g.id).length := by
  induction offers with
  | nil => intro L _; simp [run_store]
  | cons a rest ih =>
    intro L hnd
    by_cases haf : f a.discount_price = true
    · have hfa : (List.filter (fun g => f g.discount_price) (a :: rest))
          = a :: rest.filter (fun g => f g.discount_price) := by
        simp [List.filter_cons, haf]
      rw [hfa, List.map_cons, List.nodup_cons] at hnd
      obtain ⟨hnotmem, hndtail⟩ := hnd
      by_cases he : offer_exists L st a.id = true
      · have hpred : (f a.discount_price && !offer_exists L st a.id) = false := by
          simp [haf, he]
        have hfp : (List.filter (fun g => f g.discount_price
              && !offer_exists L st g.id) (a :: rest))
            = rest.filter (fun g => f g.discount_price
              && !offer_exists L st g.id) := by
          simp [List.filter_cons, hpred]
        simp only [run_store, if_pos haf, if_pos he]
        rw [hfp]
        exact ih L hndtail
      · have he' : offer_exists L st a.id = false := by simpa using he
        have hpred : (f a.discount_price && !offer_exists L st a.id) = true := by
          simp [haf, he']
        have hcongr :
            rest.filter (fun x => f x.discount_price
                && !offer_exists (save_offer L st a.id a.title) st x.id)
              = rest.filter (fun x => f x.discount_price
                && !offer_exists L st x.id) := by
          apply List.filter_congr
          intro x hx
          by_cases hxf : f x.discount_price = true
          · have hxid : ¬ a.id = x.id := by
              intro hEq
              apply hnotmem
              rw [hEq]
              exact List.mem_map_of_mem _ (List.mem_filter.2 ⟨hx, hxf⟩)
            rw [offer_exists_save_other L st a.id a.title st x.id
              (fun hc => hxid hc.2)]
          · simp [hxf]
        have hfp : (List.filter (fun g => f g.discount_price
              && !offer_exists L st g.id) (a :: rest))
            = a :: rest.filter (fun g => f g.discount_price
              && !offer_exists L st g.id) := by
          simp [List.filter_cons, hpred]
        simp only [run_store, if_pos haf, if_neg he, List.length_cons]
        rw [hfp, List.length_cons, ih _ hndtail, hcongr]
    · have hpred : (f a.discount_price && !offer_exists L st a.id) = false := by
        simp [haf]
      have hfa : (List.filter (fun g => f g.discount_price) (a :: rest))
          = rest.filter (fun g => f g.discount_price) := by
        simp [List.filter_cons, haf]
      have hfp : (List.filter (fun g => f g.discount_price
            && !offer_exists L st g.id) (a :: rest))
          = rest.filter (fun g => f g.discount_price
            && !offer_exists L st g.id) := by
        simp [List.filter_cons, hpred]
      rw [hfa] at hnd
      simp only [run_store, if_neg haf]
      rw [hfp]
      exact ih L hnd

theorem job_fst (epic gog : List Offer) (L : Ledger) (subs : List Int)
    (d : Int → Bool) :
    (check_free_games_job epic gog L subs d).1
      = (run_store gog_free "gog" gog_notice gog
          (run_store epic_free "epic" epic_notice epic L).1).1 := by
  simp only [check_free_games_job]
  split
  · rfl
  · split <;> rfl

theorem job_msgs (epic gog : List Offer) (L : Ledger) (subs : List Int)
    (d : Int → Bool) :
    (check_free_games_job epic gog L subs d).2.1
      = (run_store epic_free "epic" epic_notice epic L).2
        ++ (run_store gog_free "gog" gog_notice gog
              (run_store epic_free "epic" epic_notice epic L).1).2 := by
  simp only [check_free_games_job]
  split
  · rfl
  · split <;> rfl

/-- C1: with unchanged offer lists, the first scheduler run adds exactly one
ledger entry per free-classified offer whose `(source, external_id)` key was
not yet in the ledger (the offer ids of the free offers being distinct within
one fetch, as the data-model invariant requires), and a second run over the
resulting ledger adds no entry, produces an empty batch and sends zero
messages. -/
theorem C1_scheduler_idempotent (epic gog : List Offer) (L L1 : Ledger)
    (ms1 : List String) (at1 : List (Int × Bool)) (subs : List Int)
    (d1 d2 : Int → Bool)
    (hE : ((epic.filter fun g => epic_free g.discount_price).map Offer.id).Nodup)
    (hG : ((gog.filter fun g => gog_free g.discount_price).map Offer.id).Nodup)
    (hrun : check_free_games_job epic gog L subs d1 = (L1, ms1, at1)) :
    L1.entries.length = L.entries.length
      + ((epic.filter fun g => epic_free g.discount_price
            && !offer_exists L "epic" g.id).length
        + (gog.filter fun g => gog_free g.discount_price
            && !offer_exists L "gog" g.id).length)
    ∧ check_free_games_job epic gog L1 subs d2 = (L1, [], []) := by
  have hL1 : L1 = (run_store gog_free "gog" gog_notice gog
      (run_store epic_free "epic" epic_notice epic L).1).1 := by
    rw [← job_fst epic gog L subs d1, hrun]
  constructor
  · have hlenE := run_store_len epic_free "epic" epic_notice epic L
    have hlenG := run_store_len gog_free "gog" gog_notice gog
      (run_store epic_free "epic" epic_notice epic L).1
    have hcntE := run_store_count epic_free "epic" epic_notice epic L hE
    have hcntG := run_store_count gog_free "gog" gog_notice gog
      (run_store epic_free "epic" epic_notice epic L).1 hG
    have hcongr : (gog.filter fun g => gog_free g.discount_price
          && !offer_exists (run_store epic_free "epic" epic_notice epic L).1
              "gog" g.id)
        = gog.filter fun g => gog_free g.discount_price
            && !offer_exists L "gog" g.id := by
      apply List.filter_congr
      intro x _
      rw [run_store_other epic_free "epic" epic_notice epic "gog"
        (by decide) L x.id]
    rw [hcongr] at hcntG
    rw [hL1, hlenG, hlenE, hcntE, hcntG]
    omega
  · have hepicCov : ∀ g ∈ epic, epic_free g.discount_price = true →
        offer_exists L1 "epic" g.id = true := by
      intro g hg hf
      rw [hL1]
      exact run_store_mono gog_free "gog" gog_notice gog _ "epic" g.id
        (run_store_covers epic_free "epic" epic_notice epic L g hg hf)
    have hgogCov : ∀ g ∈ gog, gog_free g.discount_price = true →
        offer_exists L1 "gog" g.id = true := by
      intro g hg hf
      rw [hL1]
      exact run_store_covers gog_free "gog" gog_notice gog _ g hg hf
    have h1 : run_store epic_free "epic" epic_notice epic L1 = (L1, []) :=
      run_store_skip epic_free "epic" epic_notice epic L1 hepicCov
    have h2 : run_store gog_free "gog" gog_notice gog L1 = (L1, []) :=
      run_store_skip gog_free "gog" gog_notice gog L1 hgogCov
    simp [check_free_games_job, h1, h2]

theorem C1_witness :
    (⟨[("epic", "1", "T")]⟩ : Ledger).entries.length
        = (⟨[]⟩ : Ledger).entries.length
          + (([sampleOffer].filter fun g => epic_free g.discount_price
                && !offer_exists ⟨[]⟩ "epic" g.id).length
            + (([] : List Offer).filter (fun g => gog_free g.discount_price
                && !offer_exists ⟨[]⟩ "gog" g.id)).length)
    ∧ check_free_games_job [sampleOffer] [] ⟨[("epic", "1", "T")]⟩ [5]
          (fun _ => true)
        = (⟨[("epic", "1", "T")]⟩, [], []) :=
  C1_scheduler_idempotent [sampleOffer] [] ⟨[]⟩ ⟨[("epic", "1", "T")]⟩
    ["🎁 <b>Epic — бесплатно:</b> T\n🔗 U"] [(5, true)] [5]
    (fun _ => true) (fun _ => true) (by decide) (by decide) (by decide)

/-- C5: whenever the batch and the subscriber list are non-empty, the fan-out
attempts a delivery to every subscriber in order regardless of which
deliveries fail (each failure being only recorded), and neither the ledger
produced by the run nor the batch depends on the delivery outcomes. -/
theorem C5_fanout_isolation (epic gog : List Offer) (L : Ledger)
    (subs : List Int) (d d' : Int → Bool)
    (hm : (check_free_games_job epic gog L subs d).2.1 ≠ [])
    (hs : subs ≠ []) :
    (check_free_games_job epic gog L subs d).2.2.map Prod.fst = subs
    ∧ (check_free_games_job epic gog L subs d).1
        = (check_free_games_job epic gog L subs d').1
    ∧ (check_free_games_job epic gog L subs d).2.1
        = (check_free_games_job epic gog L subs d').2.1 := by
  have hmsgs : ((run_store epic_free "epic" epic_notice epic L).2
      ++ (run_store gog_free "gog" gog_notice gog
            (run_store epic_free "epic" epic_notice epic L).1).2).isEmpty
        = false := by
    rw [job_msgs epic gog L subs d] at hm
    cases hc : (run_store epic_free "epic" epic_notice epic L).2
        ++ (run_store gog_free "gog" gog_notice gog
              (run_store epic_free "epic" epic_notice epic L).1).2 with
    | nil => exact absurd hc hm
    | cons a l => rfl
  have hsubs : subs.isEmpty = false := by
    cases subs with
    | nil => exact absurd rfl hs
    | cons a l => rfl
  refine ⟨?_, ?_, ?_⟩
  · simp only [check_free_games_job, hmsgs, hsubs, Bool.false_eq_true,
      if_false]
    simp only [List.map_map]
    have hcomp : (Prod.fst ∘ fun c : Int => (c, d c)) = id := rfl
    rw [hcomp, List.map_id]
  · rw [job_fst epic gog L subs d, job_fst epic gog L subs d']
  · rw [job_msgs epic gog L subs d, job_msgs epic gog L subs d']

theorem C5_witness :
    (check_free_games_job [sampleOffer] [] ⟨[]⟩ [1, 2]
        (fun c => c == 1)).2.2.map Prod.fst = [1, 2]
    ∧ (check_free_games_job [sampleOffer] [] ⟨[]⟩ [1, 2]
          (fun c => c == 1)).1
        = (check_free_games_job [sampleOffer] [] ⟨[]⟩ [1, 2]
            (fun _ => true)).1
    ∧ (check_free_games_job [sampleOffer] [] ⟨[]⟩ [1, 2]
          (fun c => c == 1)).2.1
        = (check_free_games_job [sampleOffer] [] ⟨[]⟩ [1, 2]
            (fun _ => true)).2.1 :=
  C5_fanout_isolation [sampleOffer] [] ⟨[]⟩ [1, 2] (fun c => c == 1)
    (fun _ => true) (by decide) (by decide)

theorem ledger_lookup_save (L : Ledger) (s i t s' i' t' : String)
    (h : ledger_lookup L s' i' = some t') :
    ledger_lookup (save_offer L s i t) s' i' = some t' := by
  unfold save_offer
  split
  · exact h
  next hex =>
    have hexists : offer_exists L s' i' = true := by
      unfold ledger_lookup at h
      match hfind : L.entries.find? (fun e => e.1 == s' && e.2.1 == i') with
      | none => rw [hfind] at h; simp at h
      | some e =>
        have hmem := List.mem_of_find?_eq_some hfind
        have hp := List.find?_some hfind
        exact List.any_eq_true.2 ⟨e, hmem, hp⟩
    by_cases hmatch : ((s == s') && (i == i')) = true
    · exfalso
      rw [Bool.and_eq_true] at hmatch
      have hs : s = s' := beq_iff_eq.1 hmatch.1
      have hi : i = i' := beq_iff_eq.1 hmatch.2
      rw [hs, hi] at hex
      exact hex hexists
    · unfold ledger_lookup at h ⊢
      simp only [List.find?]
      rw [Bool.of_not_eq_true hmatch]
      exact h

theorem run_store_lookup (f : String → Bool) (st : String)
    (nt : Offer → String) (offers : List Offer) :
    ∀ (L : Ledger) (s' i' t' : String),
      ledger_lookup L s' i' = some t' →
      ledger_lookup (run_store f st nt offers L).1 s' i' = some t' := by
  induction offers with
  | nil => intro L s' i' t' h; simpa [run_store] using h
  | cons g rest ih =>
    intro L s' i' t' h
    by_cases hf : f g.discount_price = true
    · by_cases he : offer_exists L st g.id = true
      · simp only [run_store, if_pos hf, if_pos he]
        exact ih L s' i' t' h
      · simp only [run_store, if_pos hf, if_neg he]
        exact ih _ s' i' t' (ledger_lookup_save L st g.id g.title s' i' t' h)
    · simp only [run_store, if_neg hf]
      exact ih L s' i' t' h

/-- C9: once a ledger row exists for a `(store, offer_id)` key, no operation
of the system — subscribe, unsubscribe, either ledger operation, or a full
scheduler run — deletes it or changes its stored title; a repeated write to
an existing key is ignored. -/
theorem C9_ledger_write_once (op : Op) (db : DB) (s i t : String)
    (h : ledger_lookup db.ledger s i = some t) :
    ledger_lookup (applyOp op db).ledger s i = some t := by
  cases op with
  | subscribeOp c u => exact h
  | unsubscribeOp c => exact h
  | offerExistsOp a b => exact h
  | saveOfferOp a b u => exact ledger_lookup_save db.ledger a b u s i t h
  | schedulerOp e g d =>
      show ledger_lookup
        (check_free_games_job e g db.ledger (list_subscribers db.subscribers) d).1
          s i = some t
      rw [job_fst]
      exact run_store_lookup gog_free "gog" gog_notice g _ s i t
        (run_store_lookup epic_free "epic" epic_notice e db.ledger s i t h)

theorem C9_witness :
    ledger_lookup (applyOp (Op.saveOfferOp "epic" "1" "OTHER")
        ⟨[], ⟨[("epic", "1", "T")]⟩⟩).ledger "epic" "1" = some "T" :=
  C9_ledger_write_once (Op.saveOfferOp "epic" "1" "OTHER")
    ⟨[], ⟨[("epic", "1", "T")]⟩⟩ "epic" "1" "T" (by decide)

/-- C4: when there is no truthy cached value for its key and the HTTP fetch
fails — a raised transport error or timeout, a status `raise_for_status`
rejects, or a body that is not parseable as JSON — each of the three adapters
returns the empty offer list (the exception never propagates: `fetch_json`
catches it and yields `None`). -/
theorem C4_adapter_resilience (now : Nat) (ce cg cs : CacheState (List Offer))
    (oe : HttpOutcome (List EpicElem)) (og : HttpOutcome (List GogProduct))
    (os : HttpOutcome (List SteamItem)) (q : String) (lim : Nat)
    (hce : pyTruthyList (cache_get "epic_top" now ce).1 = false)
    (hcg : pyTruthyList (cache_get "gog_top" now cg).1 = false)
    (hcs : pyTruthyList (cache_get (steam_key q lim) now cs).1 = false)
    (hfe : fetch_json oe = none) (hfg : fetch_json og = none)
    (hfs : fetch_json os = none) :
    (get_epic_games now ce oe).1 = []
    ∧ (get_gog_games now cg og).1 = []
    ∧ (get_steam_games q lim now cs os).1 = [] := by
  refine ⟨?_, ?_, ?_⟩
  · rcases hc : cache_get "epic_top" now ce with ⟨v, c1⟩
    rw [hc] at hce
    match v, hce with
    | none, _ => simp [get_epic_games, hc, epic_fetch_path, hfe]
    | some [], _ => simp [get_epic_games, hc, epic_fetch_path, hfe]
  · rcases hc : cache_get "gog_top" now cg with ⟨v, c1⟩
    rw [hc] at hcg
    match v, hcg with
    | none, _ => simp [get_gog_games, hc, gog_fetch_path, hfg]
    | some [], _ => simp [get_gog_games, hc, gog_fetch_path, hfg]
  · rcases hc : cache_get (steam_key q lim) now cs with ⟨v, c1⟩
    rw [hc] at hcs
    match v, hcs with
    | none, _ => simp [get_steam_games, hc, steam_fetch_path, hfs]
    | some [], _ => simp [get_steam_games, hc, steam_fetch_path, hfs]

theorem C4_witness :
    (get_epic_games 0 [] HttpOutcome.raised).1 = []
    ∧ (get_gog_games 0 []
        (HttpOutcome.response 503 (some (JsonDoc.good [])))).1 = []
    ∧ (get_steam_games "portal" 5 0 [] (HttpOutcome.response 200 none)).1 = [] :=
  C4_adapter_resilience 0 [] [] [] HttpOutcome.raised
    (HttpOutcome.response 503 (some (JsonDoc.good [])))
    (HttpOutcome.response 200 none) "portal" 5
    (by decide) (by decide) (by decide) (by decide) (by decide) (by decide)

/-- C10: a cached empty offer list is never served — an unexpired cache entry
holding `[]` fails the `if cached:` truthiness test, so each adapter proceeds
exactly as on a cache miss and performs the upstream fetch; a cached
non-empty list is served as-is, so the before-expiry round-trip is observable
at the adapter interface only for non-empty payloads. -/
theorem C10_empty_cache_is_miss (now : Nat)
    (ce cg cs ce' : CacheState (List Offer))
    (oe : HttpOutcome (List EpicElem)) (og : HttpOutcome (List GogProduct))
    (os : HttpOutcome (List SteamItem)) (q : String) (lim : Nat)
    (x : Offer) (xs : List Offer)
    (he : cache_get "epic_top" now ce = (some [], ce))
    (hg : cache_get "gog_top" now cg = (some [], cg))
    (hs : cache_get (steam_key q lim) now cs = (some [], cs))
    (hne : cache_get "epic_top" now ce' = (some (x :: xs), ce')) :
    get_epic_games now ce oe = epic_fetch_path now ce oe
    ∧ get_gog_games now cg og = gog_fetch_path now cg og
    ∧ get_steam_games q lim now cs os = steam_fetch_path q lim now cs os
    ∧ get_epic_games now ce' oe = (x :: xs, ce') := by
  refine ⟨?_, ?_, ?_, ?_⟩
  · simp [get_epic_games, he]
  · simp [get_gog_games, hg]
  · simp [get_steam_games, hs]
  · simp [get_epic_games, hne]

theorem C10_witness :
    get_epic_games 5 [("epic_top", 10, [])] HttpOutcome.raised
        = epic_fetch_path 5 [("epic_top", 10, [])] HttpOutcome.raised
    ∧ get_gog_games 5 [("gog_top", 10, [])] HttpOutcome.raised
        = gog_fetch_path 5 [("gog_top", 10, [])] HttpOutcome.raised
    ∧ get_steam_games "portal" 5 5 [(steam_key "portal" 5, 10, [])]
          HttpOutcome.raised
        = steam_fetch_path "portal" 5 5 [(steam_key "portal" 5, 10, [])]
            HttpOutcome.raised
    ∧ get_epic_games 5 [("epic_top", 10, [sampleOffer])] HttpOutcome.raised
        = ([sampleOffer], [("epic_top", 10, [sampleOffer])]) :=
  C10_empty_cache_is_miss 5 [("epic_top", 10, [])] [("gog_top", 10, [])]
    [(steam_key "portal" 5, 10, [])] [("epic_top", 10, [sampleOffer])]
    HttpOutcome.raised HttpOutcome.raised HttpOutcome.raised "portal" 5
    sampleOffer [] (by decide) (by decide) (by decide) (by decide)


